import Mathlib

/-!
Shallow embedding of `src/sos_notebook/workflow_executor.py` (the SoS notebook
workflow dispatcher).  Pure Lean functions model the four entry points of the
file: `run_sos_workflow`, `execute_scratch_cell`, `Tapped_Executor.run` and
`stop_controller`.  The shared mutable runtime (`env.sos_dict`, `env.config`,
`sys.argv`, `os.environ['PATH']`, logger handlers, written files) becomes an
explicit `EnvState` threaded through the functions; external collaborators
(the argparse-based run parser, the SoS script parser, the step/DAG engine,
the remote host agent, `os.path` queries) become oracle fields of an
`Externals` structure.  Python exceptions become the inductive `PyExn`; a call either
returns or raises, captured by `Outcome`.  Observable channel traffic and
executor launches are recorded as an event trace.
-/

/-- Python exceptions relevant to this module.  `systemExit` is `SystemExit`
(not a subclass of `Exception` in Python 3); `pendingTasks` is
`sos.step_executor.PendingTasks`; `unknownTarget`/`removedTarget` carry the
target identity (`e.target`). -/
inductive PyExn
  | attributeError (attr : String)
  | indexError
  | keyError (key : String)
  | runtimeError (msg : String)
  | pendingTasks
  | systemExit
  | unknownTarget (target : String)
  | removedTarget (target : String)
  | other (msg : String)
deriving Repr, DecidableEq

/-- Values stored in `env.sos_dict` and returned by executors. -/
inductive Val
  | str (s : String)
  | emptyTargets
  | configObj
  | vars (l : List String)
  | num (n : Int)
deriving Repr, DecidableEq

/-- Logging levels of the `levels` table at lines 155-162 of the source
(`logging.ERROR` .. `logging.TRACE`). -/
inductive LogLevel
  | error
  | warning
  | info
  | debug
  | trace
deriving Repr, DecidableEq

/-- A handler on `env.logger`: either a `NotebookLoggingHandler` (with its
level and title) or any other handler. -/
inductive Handler
  | notebook (lvl : LogLevel) (title : String)
  | plain (tag : String)
deriving Repr, DecidableEq

/-- The `isinstance(h, NotebookLoggingHandler)` test. -/
def isNotebookHandler : Handler → Bool
  | .notebook _ _ => true
  | .plain _ => false

/-- Namespace object produced by `get_run_parser(...).parse_known_args`.
Only the attributes read by `run_sos_workflow` are modelled; dunder names
like `args.__dag__` are given plain field names. -/
structure ParsedArgs where
  workflow : Option String
  verbosity : Option Nat
  dag : Option String
  report : Option String
  remote : Option String
  configFile : Option String
  binDirs : List String
  dryrun : Bool
  sigMode : Option String
  queue : Option String
  wait : Bool
  noWait : Bool
  maxProcs : Option Nat
  maxRunningJobs : Option Nat
  targets : List String
deriving Repr, DecidableEq

/-- The `config` dictionary built at lines 230-251 of the source and handed
to the executors.  `tapping` is the key added only on the workflow-mode
branch (`config['tapping'] = 'slave'`); the `sockets` entry is opaque
external data and is not modelled. -/
structure RunConfig where
  configFile : Option String
  outputDag : Option String
  outputReport : Option String
  sigMode : Option String
  defaultQueue : String
  waitForTask : Option Bool
  resumeMode : Bool
  runMode : String
  verbosity : Option Nat
  maxProcs : Option Nat
  maxRunningJobs : Option Nat
  workdir : String
  script : String
  workflow : Option String
  targets : List String
  binDirs : List String
  workflowArgs : List String
  tapping : Option String
deriving Repr, DecidableEq

/-- The shared mutable runtime state touched by the dispatcher: `sys.argv`,
`env.verbosity`, `env.logger.handlers`, `os.environ['PATH']`,
`env.sos_dict` (as an association list), the keys of `env.config` this
module writes (`sig_mode`, `master_id`, `workflow_id`, plus the last
`env.config.update(config)` merge), written files and created
directories. -/
structure EnvState where
  sysArgv : List String
  verbosity : Option Nat
  handlers : List Handler
  envPath : String
  sosDict : List (String × Val)
  sigMode : Option String
  masterId : Option String
  workflowId : Option String
  mergedConfig : Option RunConfig
  files : List (String × String)
  createdDirs : List String
deriving Repr, DecidableEq

/-- Observable events: console output, kernel stream messages, executor
launches and remote-host traffic. -/
inductive Event
  | printHelp
  | printHint (host : String)
  | stream (chan : String) (text : String)
  | workerStarted
  | scratchDispatch (code : String)
  | scratchRun (sec : String)
  | remoteRun (cmd : List String)
  | sendToHost (path : String)
  | stderrTraceback
deriving Repr, DecidableEq

/-- A Python call either returns a value (possibly `None`) or raises. -/
inductive Outcome
  | ret (v : Option Val)
  | raised (e : PyExn)
deriving Repr, DecidableEq

/-- External collaborators of the dispatcher, modelled as total oracles:
the run parser in its two configurations (`with_workflow` true/false), the
clock, `os.getcwd`/`os.path` queries, `load_config_files`, `remove_arg`,
the remote host agent's `run_command` (exit code or raised exception text),
the `SOS_SECTION_HEADER.match` regex test, `script.workflow` applied to
parsed content (sections as opaque names, or a parse failure), the
`analyze_section` variable classification, and the step engine run
(`Interactive_Step_Executor(...).run()`, returning its result dictionary or
raising). -/
structure Externals where
  parseWf : List String → ParsedArgs × List String
  parseNoWf : List String → ParsedArgs × List String
  now : String
  cwd : String
  expanduser : String → String
  isdir : String → Bool
  loadConfig : Option String → Val
  removeArg : List String → String → List String
  remoteCommand : List String → Except String Nat
  isSectionHeader : String → Bool
  scriptWorkflow : String → Option String → Bool → Except PyExn (List String)
  analyze : String → List String × List String × List String
  stepRun : String → Except PyExn (List (String × Val))

/-- Association-list update mirroring Python dict assignment. -/
def dictPop (d : List (String × Val)) (k : String) : List (String × Val) :=
  d.filter (fun p => p.1 != k)

/-- Set a key, replacing any previous binding. -/
def dictSet (d : List (String × Val)) (k : String) (v : Val) : List (String × Val) :=
  (k, v) :: dictPop d k

/-- Dictionary lookup. -/
def dictGet (d : List (String × Val)) (k : String) : Option Val :=
  (d.find? (fun p => p.1 == k)).map Prod.snd

/-- Python truthiness of an optional string (`None` and `''` are falsy). -/
def truthyOpt : Option String → Bool
  | none => false
  | some s => s != ""

/-- Python `str.lstrip()` with no argument: drop leading whitespace. -/
def pyLstrip (s : String) : String :=
  String.mk (s.data.dropWhile Char.isWhitespace)

/-- Python `str.startswith(pre)`. -/
def pyStartsWith (s pre : String) : Bool :=
  pre.data.isPrefixOf s.data

/-- Python `str.strip()` with no argument: drop leading and trailing
whitespace. -/
def pyStrip (s : String) : String :=
  String.mk (((s.data.dropWhile Char.isWhitespace).reverse.dropWhile Char.isWhitespace).reverse)

/-- Split a character list at newline characters. -/
def splitNlAux : List Char → List Char → List String
  | [], acc => [String.mk acc.reverse]
  | c :: cs, acc =>
      if c = '\n' then String.mk acc.reverse :: splitNlAux cs []
      else splitNlAux cs (c :: acc)

/-- Python `str.splitlines` restricted to `\n` separators: split at
newlines, without a trailing empty line (so `""` has no lines, matching
Python). -/
def pySplitlines (s : String) : List String :=
  let l := splitNlAux s.data []
  if l.getLast? = some "" then l.dropLast else l

/-- Line 275 of the source: does any line of the cell match
`SOS_SECTION_HEADER` or start with `%from` / `%include`? -/
def hasHeaderOrDirective (ext : Externals) (c : String) : Bool :=
  (pySplitlines c).any
    (fun line => ext.isSectionHeader line || pyStartsWith line "%from" || pyStartsWith line "%include")

/-- `stop_controller` event alphabet (lines 65-71 of the source):
send `['done']` on `env.controller_req_socket`, blocking `recv` of the
acknowledgement, `disconnect_controllers()`, `controller.join()`. -/
inductive StopEvent
  | sendDone
  | recvAck
  | disconnect
  | joinThread
deriving Repr, DecidableEq

/-- `stop_controller(controller)`: returns at once on a falsy handle,
otherwise performs the done/ack/disconnect/join sequence. -/
def stop_controller : Option Unit → List StopEvent
  | none => []
  | some _ => [.sendDone, .recvAck, .disconnect, .joinThread]

/-- Channel events of the worker process `Tapped_Executor.run`
(lines 114-128): `log_to_file` writes, multipart pushes on
`env.tapping_logging_socket`, the `send_pyobj` of the run result on the
controller reply channel, and the blocking `recv` of the acknowledgement. -/
inductive WEvent
  | logFile (msg : String)
  | logSock (topic : String) (payload : String)
  | ctrlSend (payload : Val)
  | ctrlRecv
deriving Repr, DecidableEq

/-- `Tapped_Executor.run`, as a function of the engine run result
(`Base_Executor(...).run(self.targets)`): on success it logs, pushes
`(b'info', b'DONE')` on the logging socket, sends the result on the
controller channel, blocks on the acknowledgement `recv` and logs `done`;
on any exception it logs the exception text and pushes it on the logging
socket.  The second component is the exception propagated out of `run`,
always `none` because the `except Exception` clause swallows everything
raised in the body. -/
def tapped_executor_run (runRes : Except String Val) : List WEvent × Option String :=
  match runRes with
  | .ok r =>
      ([.logFile "create executor", .logSock "info" "DONE", .ctrlSend r, .ctrlRecv,
        .logFile "done"], none)
  | .error e =>
      ([.logFile "create executor", .logFile e, .logSock "info" e], none)

/-- The `except (UnknownTarget, RemovedTarget)` clause of
`execute_scratch_cell` (lines 94-95): target-resolution failures become
`RuntimeError(f'Unavailable target {e.target}')`, everything else passes
through. -/
def convert_target_error (r : Except PyExn (List (String × Val))) :
    Except PyExn (List (String × Val)) :=
  match r with
  | .error (.unknownTarget t) => .error (.runtimeError ("Unavailable target " ++ t))
  | .error (.removedTarget t) => .error (.runtimeError ("Unavailable target " ++ t))
  | r => r

/-- State effects of `execute_scratch_cell` before the engine run
(lines 74-91): set `workflow_id` in `env.config` and `env.sos_dict`, merge
the run config into `env.config` (which rewrites its `sig_mode` key), pop
the three per-invocation keys, then record the `analyze_section` variable
classification.  `prepare_env('')` acts only on external engine state and
is not modelled. -/
def scratch_env_setup (ext : Externals) (s : String) (config : RunConfig)
    (st : EnvState) : EnvState :=
  let d0 := dictSet st.sosDict "workflow_id" (Val.str "0")
  let d1 := dictPop (dictPop (dictPop d0 "__step_input__") "__default_output__") "__step_output__"
  let d2 := dictSet (dictSet (dictSet d1 "__signature_vars__" (Val.vars (ext.analyze s).1))
              "__environ_vars__" (Val.vars (ext.analyze s).2.1))
              "__changed_vars__" (Val.vars (ext.analyze s).2.2)
  { st with workflowId := some "0", sigMode := config.sigMode,
            mergedConfig := some config, sosDict := d2 }

/-- `execute_scratch_cell(section, config)` (lines 73-95): performs the
environment setup and runs the step executor, converting target-resolution
failures and letting every other exception propagate. -/
def execute_scratch_cell (ext : Externals) (s : String) (config : RunConfig)
    (st : EnvState) : Except PyExn (List (String × Val)) × EnvState :=
  (convert_target_error (ext.stepRun s), scratch_env_setup ext s config st)

/-- Parse-phase marker: which configuration of `get_run_parser` the
dispatcher used (`with_workflow=False` vs `True`). -/
inductive ParseMode
  | argOnly
  | withWorkflow
deriving Repr, DecidableEq

/-- Lines 139-147 of `run_sos_workflow`: if the argument list is non-empty
and its first token, after `lstrip`, starts with `-`, parse without
workflow support and force `args.workflow = None`; otherwise parse with
workflow support. -/
def parse_args (ext : Externals) (rawArgs : List String) :
    ParseMode × ParsedArgs × List String :=
  match rawArgs with
  | [] =>
      (.withWorkflow, ext.parseWf [])
  | t :: _ =>
      if pyStartsWith (pyLstrip t) "-" then
        let p := ext.parseNoWf rawArgs
        (.argOnly, { p.1 with workflow := none }, p.2)
      else
        (.withWorkflow, ext.parseWf rawArgs)

/-- The `levels` table (lines 155-162): defined for verbosities 0-4 and
`None`; any other value raises `KeyError`. -/
def levelOf : Option Nat → Option LogLevel
  | none => some .info
  | some 0 => some .error
  | some 1 => some .warning
  | some 2 => some .info
  | some 3 => some .debug
  | some 4 => some .trace
  | some _ => none

/-- Lines 153-166: when a kernel is given and the first logger handler is
not a `NotebookLoggingHandler`, replace the handlers with a fresh notebook
handler at the mapped level; in every other case the code takes the
`else` branch and reads `env.logger.handers`, an attribute that does not
exist, raising `AttributeError`.  An empty handler list with a kernel
raises `IndexError` from `handlers[0]` in the condition itself. -/
def logger_phase (kernel : Bool) (handlers : List Handler) (title : String)
    (verbosity : Option Nat) : Except PyExn (List Handler) :=
  if kernel then
    match handlers with
    | [] => .error .indexError
    | h :: _ =>
        if isNotebookHandler h then .error (.attributeError "handers")
        else
          match levelOf verbosity with
          | some lvl => .ok [.notebook lvl title]
          | none => .error (.keyError "env.verbosity")
  else .error (.attributeError "handers")

/-- Lines 169-172: `None` (not specified) becomes the timestamped default
`workflow_<dt>.dot`, the empty string becomes `None`, anything else is
kept. -/
def resolve_dag (dt : String) : Option String → Option String
  | none => some ("workflow_" ++ dt ++ ".dot")
  | some s => if s = "" then none else some s

/-- Lines 174-177: same resolution for the report option, with the
`workflow_<dt>.html` default. -/
def resolve_report (dt : String) : Option String → Option String
  | none => some ("workflow_" ++ dt ++ ".html")
  | some s => if s = "" then none else some s

/-- Rewrites `args.__dag__` and `args.__report__` in place, as the
dispatcher does before building the config. -/
def resolve_options (ext : Externals) (a : ParsedArgs) : ParsedArgs :=
  { a with dag := resolve_dag ext.now a.dag, report := resolve_report ext.now a.report }

/-- Lines 216-221: if `args.__bin_dirs__` is non-empty, create the default
`~/.sos/bin` directory when listed and missing, and prepend the expanded
directories to `os.environ['PATH']` (POSIX `os.pathsep`). -/
def bin_dirs_phase (ext : Externals) (dirs : List String) (st : EnvState) : EnvState :=
  if dirs.isEmpty then st
  else
    { st with
      createdDirs :=
        (dirs.filter (fun d => d == "~/.sos/bin" && !(ext.isdir (ext.expanduser d))))
          ++ st.createdDirs,
      envPath := String.intercalate ":" (dirs.map ext.expanduser) ++ ":" ++ st.envPath }

/-- Lines 225-228: reset `__step_output__` to empty targets and delete the
per-invocation keys from `env.sos_dict`. -/
def clear_step_keys (st : EnvState) : EnvState :=
  let keys := ["__step_input__", "__default_output__", "step_input", "step_output",
               "step_depends", "_input", "_output", "_depends"]
  { st with sosDict := keys.foldl dictPop (dictSet st.sosDict "__step_output__" Val.emptyTargets) }

/-- Lines 230-251: the config dictionary handed to the executors. -/
def build_config (ext : Externals) (args : ParsedArgs) (wargs : List String) : RunConfig :=
  { configFile := args.configFile
    outputDag := args.dag
    outputReport := args.report
    sigMode := if args.dryrun then some "ignore" else args.sigMode
    defaultQueue := args.queue.getD ""
    waitForTask :=
      if args.wait || args.dryrun then some true
      else if args.noWait then some false else none
    resumeMode := false
    runMode := if args.dryrun then "dryrun" else "interactive"
    verbosity := args.verbosity
    maxProcs := args.maxProcs
    maxRunningJobs := args.maxRunningJobs
    workdir := ext.cwd
    script := "interactive"
    workflow := args.workflow
    targets := args.targets
    binDirs := args.binDirs
    workflowArgs := wargs
    tapping := none }

/-- Lines 202-213: reporting of the remote `run_command` result.  A zero
exit code is falsy, so no message is sent; a non-zero code `n` produces a
`stderr` stream message interpolating `n`; an exception raised while
running the command is caught and, when a kernel is present, surfaced as a
`stdout` stream message with the exception text. -/
def remote_run_report (kernel : Bool) (result : Except String Nat) : List Event :=
  match result with
  | .ok n =>
      if n != 0 then
        [.stream "stderr" ("remote execution of workflow exited with code " ++ toString n)]
      else []
  | .error e => if kernel then [.stream "stdout" e] else []

/-- Lines 179-214, the remote delegation branch: store `CONFIG` in
`env.sos_dict`, return at once on whitespace-only code, otherwise write the
code to `.sos/__interactive__.sos`, print the hint, ship the script to the
host, strip `-r`/`-c` from the forwarded arguments, run
`['sos', 'run', script] + argv` remotely and report its result.  The branch
always returns `None`; no exception escapes the remote command. -/
def remote_branch (ext : Externals) (c : String) (host : String)
    (rawArgs : List String) (args : ParsedArgs) (kernel : Bool) (st : EnvState) :
    Outcome × EnvState × List Event :=
  let st1 := { st with sosDict := dictSet st.sosDict "CONFIG" (ext.loadConfig args.configFile) }
  if pyStrip c = "" then (.ret none, st1, [])
  else
    let script := ".sos/__interactive__.sos"
    let st2 := { st1 with files := (script, c) :: st1.files }
    let argv := ext.removeArg (ext.removeArg rawArgs "-r") "-c"
    let cmd := ["sos", "run", script] ++ argv
    (.ret none, st2,
      [.printHint host, .sendToHost script, .remoteRun cmd]
        ++ remote_run_report kernel (ext.remoteCommand cmd))

/-- Line 271: `env.config['master_id'] = '0'`. -/
def set_master (st : EnvState) : EnvState :=
  { st with masterId := some "0" }

/-- Result of looking up `'__last_res__'` in the scratch run's result
dictionary (line 281); a missing key is a `KeyError`. -/
def dict_last_res (d : List (String × Val)) : Outcome :=
  match dictGet d "__last_res__" with
  | none => .raised (.keyError "__last_res__")
  | some v => .ret (some v)

/-- Wrap-up of the scratch dispatch once `execute_scratch_cell` has run. -/
def scratch_result (c2 s : String) (r : Except PyExn (List (String × Val)) × EnvState) :
    Outcome × EnvState × List Event :=
  match r.1 with
  | .error e => (.raised e, r.2, [.scratchDispatch c2, .scratchRun s])
  | .ok d => (dict_last_res d, r.2, [.scratchDispatch c2, .scratchRun s])

/-- Parse the wrapped cell (`SoS_Script(content=code)` followed by
`script.workflow(args.workflow)`, `use_default` left at its default) and
run its first section through `execute_scratch_cell`; an empty section
list makes `workflow.sections[0]` raise `IndexError`. -/
def scratch_dispatch (ext : Externals) (c2 : String) (args : ParsedArgs)
    (config : RunConfig) (st : EnvState) : Outcome × EnvState × List Event :=
  match ext.scriptWorkflow c2 args.workflow true with
  | .error e => (.raised e, st, [.scratchDispatch c2])
  | .ok [] => (.raised .indexError, st, [.scratchDispatch c2])
  | .ok (s :: _) => scratch_result c2 s (execute_scratch_cell ext s config st)

/-- Lines 270-281, the scratch branch: set `master_id`, and if no line of
the cell is a section header or `%from`/`%include` directive, prepend the
default `[scratch_0]` header and dispatch; otherwise return `None` without
executing anything. -/
def scratch_branch (ext : Externals) (c : String) (args : ParsedArgs)
    (config : RunConfig) (st : EnvState) : Outcome × EnvState × List Event :=
  if hasHeaderOrDirective ext c then (.ret none, set_master st, [])
  else scratch_dispatch ext ("[scratch_0]\n" ++ c) args config (set_master st)

/-- Lines 256-269, the workflow-mode branch: parse the script and extract
the workflow (`use_default=not args.__targets__`); on success a
`Tapped_Executor` worker is started (its private config copy gains the
`tapping`/`sockets` keys, which is unobservable here) and the caller
returns immediately without waiting. -/
def workflow_branch (ext : Externals) (c : String) (args : ParsedArgs)
    (st : EnvState) : Outcome × EnvState × List Event :=
  match ext.scriptWorkflow c args.workflow args.targets.isEmpty with
  | .error e => (.raised e, st, [])
  | .ok _ => (.ret none, st, [.workerStarted])

/-- The body of the `try` at lines 253-281: return at once on
whitespace-only code, otherwise take the workflow-mode or scratch
branch. -/
def try_section (ext : Externals) (c : String) (args : ParsedArgs)
    (workflowMode : Bool) (config : RunConfig) (st : EnvState) :
    Outcome × EnvState × List Event :=
  if pyStrip c = "" then (.ret none, st, [])
  else if workflowMode then workflow_branch ext c args st
  else scratch_branch ext c args config st

/-- Python `args.verbosity and args.verbosity > 2` (line 290): false for
`None` and `0`, otherwise the comparison. -/
def verbosityAbove2 : Option Nat → Bool
  | none => false
  | some n => n != 0 && n > 2

/-- The `except` clauses at lines 283-292: `PendingTasks` is re-raised
unchanged, `SystemExit` is swallowed into a plain return, any other
exception optionally writes a traceback to stderr and is re-raised. -/
def except_translate (verbosity : Option Nat) : Outcome → Outcome × List Event
  | .raised .pendingTasks => (.raised .pendingTasks, [])
  | .raised .systemExit => (.ret none, [])
  | .raised e => (.raised e, if verbosityAbove2 verbosity then [.stderrTraceback] else [])
  | .ret v => (.ret v, [])

/-- The `finally` clause at lines 293-295: `env.config['sig_mode'] =
'ignore'` and `env.verbosity = 2`, run on every exit from the `try`. -/
def finally_update (st : EnvState) : EnvState :=
  { st with sigMode := some "ignore", verbosity := some 2 }

/-- The whole `try/except/finally` execution phase (lines 253-295). -/
def exec_phase (ext : Externals) (c : String) (args : ParsedArgs)
    (workflowMode : Bool) (config : RunConfig) (st : EnvState) :
    Outcome × EnvState × List Event :=
  let r := try_section ext c args workflowMode config st
  let t := except_translate args.verbosity r.1
  (t.1, finally_update r.2.1, r.2.2 ++ t.2)

/-- Line 150 and 152: `sys.argv = ['%run'] + raw_args` and
`env.verbosity = args.verbosity`. -/
def set_argv_verbosity (rawArgs : List String) (args : ParsedArgs) (st : EnvState) : EnvState :=
  { st with sysArgv := "%run" :: rawArgs, verbosity := args.verbosity }

/-- The handler title `' '.join(sys.argv)`. -/
def argvTitle (rawArgs : List String) : String :=
  String.intercalate " " ("%run" :: rawArgs)

/-- Everything after the logger step: resolve the dag/report options, take
the remote branch when `args.__remote__` is truthy, otherwise mutate the
PATH and `env.sos_dict`, build the config and enter the execution phase. -/
def run_after_logger (ext : Externals) (c : String) (rawArgs : List String)
    (kernel : Bool) (workflowMode : Bool) (args0 : ParsedArgs)
    (wargs : List String) (st : EnvState) : Outcome × EnvState × List Event :=
  let args := resolve_options ext args0
  if truthyOpt args.remote then
    remote_branch ext c (args.remote.getD "") rawArgs args kernel st
  else
    exec_phase ext c args workflowMode (build_config ext args wargs)
      (clear_step_keys (bin_dirs_phase ext args.binDirs st))

/-- Lines 150-295, after help handling and argument parsing: set
`sys.argv` and `env.verbosity`, run the logger update (whose failure
propagates with no `finally`), then continue. -/
def run_after_parse (ext : Externals) (c : String) (rawArgs : List String)
    (kernel : Bool) (workflowMode : Bool) (args0 : ParsedArgs)
    (wargs : List String) (st : EnvState) : Outcome × EnvState × List Event :=
  let st1 := set_argv_verbosity rawArgs args0 st
  match logger_phase kernel st.handlers (argvTitle rawArgs) args0.verbosity with
  | .error e => (.raised e, st1, [])
  | .ok hs => run_after_logger ext c rawArgs kernel workflowMode args0 wargs
      { st1 with handlers := hs }

/-- `run_sos_workflow(code, raw_args, kernel, workflow_mode)`
(lines 130-295).  `raw_args` is taken as an already-split token list (the
string form goes through `shlex.split` first); the kernel argument is
reduced to its truthiness.  With no code or a `-h` flag the usage text is
printed and nothing else happens. -/
def run_sos_workflow (ext : Externals) (code : Option String)
    (rawArgs : List String) (kernel : Bool) (workflowMode : Bool)
    (st : EnvState) : Outcome × EnvState × List Event :=
  if code.isNone || rawArgs.contains "-h" then (.ret none, st, [.printHelp])
  else
    run_after_parse ext (code.getD "") rawArgs kernel workflowMode
      (parse_args ext rawArgs).2.1 (parse_args ext rawArgs).2.2 st

/-- Events that witness that the cell's code reached an execution path:
a worker launch, a scratch dispatch or run, or remote-host traffic. -/
def isExecEvent : Event → Bool
  | .workerStarted => true
  | .scratchDispatch _ => true
  | .scratchRun _ => true
  | .remoteRun _ => true
  | .sendToHost _ => true
  | _ => false

/-- Parser namespace with every option at its unset default. -/
def defaultArgs : ParsedArgs :=
  { workflow := none, verbosity := none, dag := none, report := none,
    remote := none, configFile := none, binDirs := [], dryrun := false,
    sigMode := none, queue := none, wait := false, noWait := false,
    maxProcs := none, maxRunningJobs := none, targets := [] }

/-- Concrete external world used by witnesses: a trivial parser, a fixed
clock, no section headers, a one-section parsed script and a step engine
that succeeds with a `__last_res__` of `0`. -/
def ext₀ : Externals :=
  { parseWf := fun _ => (defaultArgs, [])
    parseNoWf := fun _ => (defaultArgs, [])
    now := "010170_0000"
    cwd := "/home/user"
    expanduser := id
    isdir := fun _ => true
    loadConfig := fun _ => Val.configObj
    removeArg := fun l _ => l
    remoteCommand := fun _ => .ok 0
    isSectionHeader := fun _ => false
    scriptWorkflow := fun _ _ _ => .ok ["s0"]
    analyze := fun _ => ([], [], [])
    stepRun := fun _ => .ok [("__last_res__", Val.num 0)] }

/-- Variant of `ext₀` whose header regex matches every line. -/
def ext₁ : Externals :=
  { ext₀ with isSectionHeader := fun _ => true }

/-- Variant of `ext₀` with a prescribed step-engine result. -/
def extStep (r : Except PyExn (List (String × Val))) : Externals :=
  { ext₀ with stepRun := fun _ => r }

/-- Concrete initial runtime state used by witnesses. -/
def st₀ : EnvState :=
  { sysArgv := ["python"], verbosity := some 1,
    handlers := [Handler.plain "console"], envPath := "/usr/bin",
    sosDict := [], sigMode := none, masterId := none, workflowId := none,
    mergedConfig := none, files := [], createdDirs := [] }

/-- Concrete run configuration used by witnesses. -/
def config₀ : RunConfig := build_config ext₀ defaultArgs []

/-- Target-resolution failures, the exceptions converted by
`execute_scratch_cell`. -/
def isTargetFailure : PyExn → Bool
  | .unknownTarget _ => true
  | .removedTarget _ => true
  | _ => false

/-- C9: stop on an absent (None) controller handle is a no-op with no
channel or thread interaction; stop on a live handle sends the sentinel
"done" command on the request channel, blocks until an acknowledgement is
received, releases the channel bindings, and joins the background
controller thread, in that order. -/
theorem C9_stop_controller_protocol :
    stop_controller none = [] ∧
    stop_controller (some ()) =
      [StopEvent.sendDone, StopEvent.recvAck, StopEvent.disconnect, StopEvent.joinThread] :=
  ⟨rfl, rfl⟩

/-- C2: on a successful engine run the worker pushes "DONE" on the log
channel, then sends the outcome on the reply channel, then blocks for an
acknowledgement before exiting; on any exception it pushes the exception
text on the log channel, sends no reply, awaits no acknowledgement, and
propagates nothing. -/
theorem C2_worker_rendezvous :
    (∀ v : Val, tapped_executor_run (.ok v) =
      ([WEvent.logFile "create executor", WEvent.logSock "info" "DONE",
        WEvent.ctrlSend v, WEvent.ctrlRecv, WEvent.logFile "done"], none)) ∧
    (∀ e : String, tapped_executor_run (.error e) =
      ([WEvent.logFile "create executor", WEvent.logFile e, WEvent.logSock "info" e], none)) ∧
    (∀ (e : String) (v : Val), WEvent.ctrlSend v ∉ (tapped_executor_run (.error e)).1) ∧
    (∀ e : String, WEvent.ctrlRecv ∉ (tapped_executor_run (.error e)).1) := by
  refine ⟨fun v => rfl, fun e => rfl, fun e v => ?_, fun e => ?_⟩ <;>
    simp [tapped_executor_run]

/-- C5: with a fixed timestamp, an unspecified DAG option resolves to the
timestamped `.dot` default and an unspecified report option to the
timestamped `.html` default; an explicit empty-string override resolves to
an absent value, and any other explicit value is kept unchanged. -/
theorem C5_artifact_defaults : ∀ dt : String,
    resolve_dag dt none = some ("workflow_" ++ dt ++ ".dot") ∧
    resolve_report dt none = some ("workflow_" ++ dt ++ ".html") ∧
    resolve_dag dt (some "") = none ∧
    resolve_report dt (some "") = none ∧
    (∀ s : String, s ≠ "" →
      resolve_dag dt (some s) = some s ∧ resolve_report dt (some s) = some s) := by
  intro dt
  refine ⟨rfl, rfl, by simp [resolve_dag], by simp [resolve_report], fun s hs => ?_⟩
  constructor <;> simp [resolve_dag, resolve_report, hs]

/-- Witness for C5 at the concrete timestamp "T" and override "x.dot". -/
theorem C5_artifact_defaults_witness :
    resolve_dag "T" none = some "workflow_T.dot" ∧
    resolve_dag "T" (some "") = none ∧
    resolve_dag "T" (some "x.dot") = some "x.dot" := by
  have h := C5_artifact_defaults "T"
  exact ⟨h.1, h.2.2.1, (h.2.2.2.2 "x.dot" (by decide)).1⟩

/-- C4: a non-empty argument list whose first token (after lstrip) starts
with `-` is parsed in argument-only mode with the workflow name forced to
absent; a leading non-flag token is parsed in named-workflow mode. -/
theorem C4_parse_mode : ∀ (ext : Externals) (t : String) (ts : List String),
    (pyStartsWith (pyLstrip t) "-" = true →
      (parse_args ext (t :: ts)).1 = ParseMode.argOnly ∧
      (parse_args ext (t :: ts)).2.1.workflow = none) ∧
    (pyStartsWith (pyLstrip t) "-" = false →
      (parse_args ext (t :: ts)).1 = ParseMode.withWorkflow ∧
      (parse_args ext (t :: ts)).2.1 = (ext.parseWf (t :: ts)).1) := by
  intro ext t ts
  constructor <;> intro h <;> simp [parse_args, h]

/-- Witness for C4 at the flag token "-v" and the plain token "align". -/
theorem C4_parse_mode_witness :
    ((parse_args ext₀ ["-v"]).1 = ParseMode.argOnly ∧
     (parse_args ext₀ ["-v"]).2.1.workflow = none) ∧
    ((parse_args ext₀ ["align"]).1 = ParseMode.withWorkflow ∧
     (parse_args ext₀ ["align"]).2.1 = (ext₀.parseWf ["align"]).1) :=
  ⟨(C4_parse_mode ext₀ "-v" []).1 (by decide),
   (C4_parse_mode ext₀ "align" []).2 (by decide)⟩

/-- C6: a target-resolution failure from the engine (unknown or removed
target) is converted by the scratch executor into a runtime error naming
the target; every other exception and every success passes through
unchanged. -/
theorem C6_target_error_conversion :
    ∀ (ext : Externals) (s : String) (config : RunConfig) (st : EnvState),
    (∀ t, ext.stepRun s = .error (.unknownTarget t) →
      (execute_scratch_cell ext s config st).1 =
        .error (.runtimeError ("Unavailable target " ++ t))) ∧
    (∀ t, ext.stepRun s = .error (.removedTarget t) →
      (execute_scratch_cell ext s config st).1 =
        .error (.runtimeError ("Unavailable target " ++ t))) ∧
    (∀ e, isTargetFailure e = false → ext.stepRun s = .error e →
      (execute_scratch_cell ext s config st).1 = .error e) ∧
    (∀ d, ext.stepRun s = .ok d →
      (execute_scratch_cell ext s config st).1 = .ok d) := by
  intro ext s config st
  refine ⟨fun t h => ?_, fun t h => ?_, fun e he h => ?_, fun d h => ?_⟩
  · simp [execute_scratch_cell, convert_target_error, h]
  · simp [execute_scratch_cell, convert_target_error, h]
  · simp only [execute_scratch_cell, h]
    cases e <;> simp_all [convert_target_error, isTargetFailure]
  · simp [execute_scratch_cell, convert_target_error, h]

/-- Witness for C6 at the concrete targets "a.txt" / "b.txt", the
non-target exception `PendingTasks` and a concrete success. -/
theorem C6_target_error_conversion_witness :
    (execute_scratch_cell (extStep (.error (.unknownTarget "a.txt"))) "s0" config₀ st₀).1 =
      .error (.runtimeError "Unavailable target a.txt") ∧
    (execute_scratch_cell (extStep (.error (.removedTarget "b.txt"))) "s0" config₀ st₀).1 =
      .error (.runtimeError "Unavailable target b.txt") ∧
    (execute_scratch_cell (extStep (.error .pendingTasks)) "s0" config₀ st₀).1 =
      .error .pendingTasks ∧
    (execute_scratch_cell (extStep (.ok [])) "s0" config₀ st₀).1 = .ok [] :=
  ⟨(C6_target_error_conversion (extStep (.error (.unknownTarget "a.txt"))) "s0" config₀ st₀).1
      "a.txt" rfl,
   (C6_target_error_conversion (extStep (.error (.removedTarget "b.txt"))) "s0" config₀ st₀).2.1
      "b.txt" rfl,
   (C6_target_error_conversion (extStep (.error .pendingTasks)) "s0" config₀ st₀).2.2.1
      .pendingTasks (by decide) rfl,
   (C6_target_error_conversion (extStep (.ok [])) "s0" config₀ st₀).2.2.2 [] rfl⟩

/-- C7: a remote exit code of 0 produces no stream message; a non-zero
exit code `n` produces a stderr stream message whose text interpolates
`n`; a transport exception is caught and surfaced as a stdout stream
message; and the remote branch always returns `None`, never an
exception. -/
theorem C7_remote_reporting :
    remote_run_report true (.ok 0) = [] ∧
    (∀ n : Nat, n ≠ 0 →
      remote_run_report true (.ok n) =
        [Event.stream "stderr" ("remote execution of workflow exited with code " ++ toString n)]) ∧
    (∀ e : String, remote_run_report true (.error e) = [Event.stream "stdout" e]) ∧
    (∀ (ext : Externals) (c host : String) (rawArgs : List String)
       (args : ParsedArgs) (st : EnvState),
      (remote_branch ext c host rawArgs args true st).1 = Outcome.ret none) := by
  refine ⟨rfl, fun n hn => ?_, fun e => rfl, fun ext c host rawArgs args st => ?_⟩
  · simp [remote_run_report, hn]
  · by_cases h : pyStrip c = "" <;> simp [remote_branch, h]

/-- Witness for C7 at exit code 2 and the transport error "socket closed". -/
theorem C7_remote_reporting_witness :
    remote_run_report true (.ok 2) =
      [Event.stream "stderr" ("remote execution of workflow exited with code " ++ toString 2)] ∧
    remote_run_report true (.error "socket closed") =
      [Event.stream "stdout" "socket closed"] ∧
    (remote_branch ext₀ "print(1)" "cluster" [] defaultArgs true st₀).1 = Outcome.ret none :=
  ⟨C7_remote_reporting.2.1 2 (by decide),
   C7_remote_reporting.2.2.1 "socket closed",
   C7_remote_reporting.2.2.2 ext₀ "print(1)" "cluster" [] defaultArgs st₀⟩

/-- Reduction of the `try` body to the scratch dispatch when the code is
non-empty, header-free, and the wrapped script parses to at least one
section. -/
lemma try_scratch_red (ext : Externals) (c : String) (args : ParsedArgs)
    (config : RunConfig) (st : EnvState)
    (hne : pyStrip c ≠ "") (hhd : hasHeaderOrDirective ext c = false)
    (s : String) (rest : List String)
    (hwf : ext.scriptWorkflow ("[scratch_0]\n" ++ c) args.workflow true = .ok (s :: rest)) :
    try_section ext c args false config st =
      scratch_result ("[scratch_0]\n" ++ c) s (execute_scratch_cell ext s config (set_master st)) := by
  simp [try_section, scratch_branch, scratch_dispatch, hne, hhd, hwf]

/-- C3: in non-workflow mode with non-empty code, a cell with no section
header and no `%from`/`%include` directive line is wrapped with the single
default `[scratch_0]` header and then executed; a cell that already has
such a line is refused from scratch mode and the execution phase returns
`None` without any execution event. -/
theorem C3_scratch_wrap_or_refuse :
    ∀ (ext : Externals) (c : String) (args : ParsedArgs) (config : RunConfig) (st : EnvState),
    pyStrip c ≠ "" →
    ((hasHeaderOrDirective ext c = false →
      ∀ (s : String) (rest : List String),
        ext.scriptWorkflow ("[scratch_0]\n" ++ c) args.workflow true = .ok (s :: rest) →
        Event.scratchDispatch ("[scratch_0]\n" ++ c) ∈ (exec_phase ext c args false config st).2.2 ∧
        Event.scratchRun s ∈ (exec_phase ext c args false config st).2.2) ∧
     (hasHeaderOrDirective ext c = true →
      (exec_phase ext c args false config st).1 = Outcome.ret none ∧
      (exec_phase ext c args false config st).2.2 = [])) := by
  intro ext c args config st hne
  constructor
  · intro hhd s rest hwf
    have ht := try_scratch_red ext c args config st hne hhd s rest hwf
    have hev : (try_section ext c args false config st).2.2 =
        [Event.scratchDispatch ("[scratch_0]\n" ++ c), Event.scratchRun s] := by
      rw [ht]
      cases hr : (execute_scratch_cell ext s config (set_master st)).1 <;>
        simp [scratch_result, hr]
    constructor <;> simp [exec_phase, hev]
  · intro hhd
    have ht : try_section ext c args false config st = (Outcome.ret none, set_master st, []) := by
      simp [try_section, scratch_branch, hne, hhd]
    constructor <;> simp [exec_phase, ht, except_translate]

/-- Witness for C3: for `ext₀` (no header anywhere) the cell `print(1)` is
wrapped and dispatched; for `ext₁` (every line is a header) the same cell
is refused. -/
theorem C3_scratch_wrap_or_refuse_witness :
    (Event.scratchDispatch ("[scratch_0]\n" ++ "print(1)") ∈
       (exec_phase ext₀ "print(1)" defaultArgs false config₀ st₀).2.2 ∧
     Event.scratchRun "s0" ∈ (exec_phase ext₀ "print(1)" defaultArgs false config₀ st₀).2.2) ∧
    ((exec_phase ext₁ "print(1)" defaultArgs false config₀ st₀).1 = Outcome.ret none ∧
     (exec_phase ext₁ "print(1)" defaultArgs false config₀ st₀).2.2 = []) :=
  ⟨(C3_scratch_wrap_or_refuse ext₀ "print(1)" defaultArgs config₀ st₀ (by decide)).1
      (by decide) "s0" [] rfl,
   (C3_scratch_wrap_or_refuse ext₁ "print(1)" defaultArgs config₀ st₀ (by decide)).2 (by decide)⟩

/-- C8: once the dispatcher reaches the execution phase, a `PendingTasks`
signal raised by the engine is re-raised unmodified, while a `SystemExit`
(the engine exiting because nothing needed resuming) is swallowed into a
normal `None` return. -/
theorem C8_pending_and_benign :
    (∀ (ext : Externals) (c : String) (args : ParsedArgs) (config : RunConfig)
       (st : EnvState) (s : String) (rest : List String),
      pyStrip c ≠ "" → hasHeaderOrDirective ext c = false →
      ext.scriptWorkflow ("[scratch_0]\n" ++ c) args.workflow true = .ok (s :: rest) →
      ext.stepRun s = .error .pendingTasks →
      (exec_phase ext c args false config st).1 = Outcome.raised PyExn.pendingTasks) ∧
    (∀ (ext : Externals) (c : String) (args : ParsedArgs) (config : RunConfig)
       (st : EnvState) (s : String) (rest : List String),
      pyStrip c ≠ "" → hasHeaderOrDirective ext c = false →
      ext.scriptWorkflow ("[scratch_0]\n" ++ c) args.workflow true = .ok (s :: rest) →
      ext.stepRun s = .error .systemExit →
      (exec_phase ext c args false config st).1 = Outcome.ret none) := by
  constructor <;>
  · intro ext c args config st s rest hne hhd hwf hstep
    have ht := try_scratch_red ext c args config st hne hhd s rest hwf
    simp [exec_phase, ht, scratch_result, execute_scratch_cell, convert_target_error,
          hstep, except_translate]

/-- Witness for C8 at a concrete engine raising `PendingTasks` and a
concrete engine raising `SystemExit`. -/
theorem C8_pending_and_benign_witness :
    (exec_phase (extStep (.error .pendingTasks)) "print(1)" defaultArgs false config₀ st₀).1 =
      Outcome.raised PyExn.pendingTasks ∧
    (exec_phase (extStep (.error .systemExit)) "print(1)" defaultArgs false config₀ st₀).1 =
      Outcome.ret none :=
  ⟨C8_pending_and_benign.1 (extStep (.error .pendingTasks)) "print(1)" defaultArgs config₀ st₀
      "s0" [] (by decide) (by decide) rfl rfl,
   C8_pending_and_benign.2 (extStep (.error .systemExit)) "print(1)" defaultArgs config₀ st₀
      "s0" [] (by decide) (by decide) rfl rfl⟩

/-- The `else` branch of the logger update is taken (no kernel, or the
first handler already a notebook handler) and reads the nonexistent
`handers` attribute. -/
lemma logger_phase_handers :
    ∀ (kernel : Bool) (hs : List Handler) (title : String) (v : Option Nat),
    (kernel = false ∨ ∃ lvl t rest, hs = Handler.notebook lvl t :: rest) →
    logger_phase kernel hs title v = .error (.attributeError "handers") := by
  intro kernel hs title v h
  rcases h with h | ⟨lvl, t, rest, h⟩
  · subst h; simp [logger_phase]
  · subst h; cases kernel <;> simp [logger_phase, isNotebookHandler]

/-- C10: past the help check, a dispatch with no kernel or with a notebook
logging handler already first on the logger raises `AttributeError` from
the misspelt `env.logger.handers` before any execution mode is selected:
the call raises and the event trace is empty. -/
theorem C10_logger_attribute_error :
    ∀ (ext : Externals) (c : String) (rawArgs : List String) (kernel wm : Bool) (st : EnvState),
    rawArgs.contains "-h" = false →
    (kernel = false ∨ ∃ lvl t rest, st.handlers = Handler.notebook lvl t :: rest) →
    (run_sos_workflow ext (some c) rawArgs kernel wm st).1 =
      Outcome.raised (PyExn.attributeError "handers") ∧
    (run_sos_workflow ext (some c) rawArgs kernel wm st).2.2 = [] := by
  intro ext c rawArgs kernel wm st hh hk
  have hh2 : "-h" ∉ rawArgs := by simpa using hh
  have hl := logger_phase_handers kernel st.handlers (argvTitle rawArgs)
    (parse_args ext rawArgs).2.1.verbosity hk
  constructor <;> simp [run_sos_workflow, run_after_parse, hh2, hl]

/-- Witness for C10 on a kernel-less dispatch. -/
theorem C10_logger_attribute_error_witness :
    (run_sos_workflow ext₀ (some "print(1)") [] false false st₀).1 =
      Outcome.raised (PyExn.attributeError "handers") ∧
    (run_sos_workflow ext₀ (some "print(1)") [] false false st₀).2.2 = [] :=
  C10_logger_attribute_error ext₀ "print(1)" [] false false st₀ (by decide) (Or.inl rfl)

/-- The remote branch never rewrites `sys.argv`. -/
lemma remote_branch_sysArgv (ext : Externals) (c host : String) (rawArgs : List String)
    (args : ParsedArgs) (kernel : Bool) (st : EnvState) :
    (remote_branch ext c host rawArgs args kernel st).2.1.sysArgv = st.sysArgv := by
  by_cases h : pyStrip c = "" <;> simp [remote_branch, h]

/-- The PATH-prepending phase never rewrites `sys.argv`. -/
lemma bin_dirs_phase_sysArgv (ext : Externals) (dirs : List String) (st : EnvState) :
    (bin_dirs_phase ext dirs st).sysArgv = st.sysArgv := by
  by_cases h : dirs.isEmpty <;> simp [bin_dirs_phase, h]

/-- C1 (amended): on a whitespace-only (non-None, non-help) cell the
dispatcher emits no events at all — in particular it executes nothing —
but it is not side-effect free: `sys.argv` is rewritten to the `%run`
invocation on every such call. -/
theorem C1_amended_no_execution :
    ∀ (ext : Externals) (rawArgs : List String) (kernel wm : Bool) (st : EnvState) (c : String),
    pyStrip c = "" → rawArgs.contains "-h" = false →
    (run_sos_workflow ext (some c) rawArgs kernel wm st).2.2 = [] ∧
    (run_sos_workflow ext (some c) rawArgs kernel wm st).2.1.sysArgv = "%run" :: rawArgs := by
  intro ext rawArgs kernel wm st c hc hh
  have hh2 : "-h" ∉ rawArgs := by simpa using hh
  have h0 : run_sos_workflow ext (some c) rawArgs kernel wm st =
      run_after_parse ext c rawArgs kernel wm (parse_args ext rawArgs).2.1
        (parse_args ext rawArgs).2.2 st := by
    simp [run_sos_workflow, hh2]
  rw [h0]
  cases hl : logger_phase kernel st.handlers (argvTitle rawArgs)
      (parse_args ext rawArgs).2.1.verbosity with
  | error e => simp [run_after_parse, hl, set_argv_verbosity]
  | ok hs =>
      by_cases hr : truthyOpt (resolve_options ext (parse_args ext rawArgs).2.1).remote
      · simp [run_after_parse, hl, run_after_logger, hr, remote_branch, hc, set_argv_verbosity]
      · simp [run_after_parse, hl, run_after_logger, hr, exec_phase, try_section, hc,
              except_translate, finally_update, clear_step_keys, bin_dirs_phase_sysArgv,
              set_argv_verbosity]

/-- Witness for C1 (amended) on the whitespace cell `" "`. -/
theorem C1_amended_no_execution_witness :
    (run_sos_workflow ext₀ (some " ") ["-v"] true false st₀).2.2 = [] ∧
    (run_sos_workflow ext₀ (some " ") ["-v"] true false st₀).2.1.sysArgv = ["%run", "-v"] :=
  C1_amended_no_execution ext₀ ["-v"] true false st₀ " " (by decide) (by decide)

/-- C1 counterexample: on the whitespace-only cell `" "` the dispatcher
does have a side effect — the argument vector is rewritten — so the claim
that such a request performs no side effects is false. -/
theorem C1_counterexample :
    pyStrip " " = "" ∧
    (run_sos_workflow ext₀ (some " ") [] true false st₀).2.1.sysArgv ≠ st₀.sysArgv := by
  decide

/-- Witness for C2 at a concrete success value and exception text. -/
theorem C2_worker_rendezvous_witness :
    tapped_executor_run (.ok (Val.num 7)) =
      ([WEvent.logFile "create executor", WEvent.logSock "info" "DONE",
        WEvent.ctrlSend (Val.num 7), WEvent.ctrlRecv, WEvent.logFile "done"], none) ∧
    tapped_executor_run (.error "division by zero") =
      ([WEvent.logFile "create executor", WEvent.logFile "division by zero",
        WEvent.logSock "info" "division by zero"], none) :=
  ⟨C2_worker_rendezvous.1 (Val.num 7), C2_worker_rendezvous.2.1 "division by zero"⟩
